import Mathlib

/-!
Verification of the AI_Career_Chatbot repository (`app.py`, `utils.py`).

The development shallowly embeds the persistence utility, the RAG
orchestrator (`CareerChatbotRAG`), and the Streamlit handler logic that
manipulates sessions and the user profile.  External collaborators
(filesystem, JSON codec, Chroma vector store, HuggingFace embeddings,
the Groq chat client, the langchain text splitter) are modelled as
explicit parameters or small abstract functions; the repository's own
control flow is translated statement by statement.  Python exceptions
are modelled with `Except`: a function that may raise returns
`Except String α`, and a bare `except:` handler corresponds to a
`match` on that result.
-/

set_option autoImplicit false
set_option maxRecDepth 4000

namespace Career

/-- JSON values as written and read by `utils.py`.  Numbers are restricted
to integers: the persisted session and profile structures contain only
strings, objects, arrays, booleans and null. -/
inductive Json where
  | null : Json
  | bool (b : Bool) : Json
  | num (n : Int) : Json
  | str (s : String) : Json
  | arr (elems : List Json) : Json
  | obj (fields : List (String × Json)) : Json

/-- Returns true when the key `k` does not occur among the field names. -/
def keyFree (k : String) : List (String × Json) → Bool
  | [] => true
  | (k2, _) :: rest => (k2 != k) && keyFree k rest

mutual

/-- Well-formed JSON: every object has pairwise distinct keys.  Exactly the
JSON values that arise from Python dicts/lists/strings, for which
`json.dump` followed by `json.load` is the identity. -/
def Json.wf : Json → Bool
  | .null => true
  | .bool _ => true
  | .num _ => true
  | .str _ => true
  | .arr elems => Json.wfList elems
  | .obj fields => Json.wfFields fields

/-- Well-formedness of a list of JSON values. -/
def Json.wfList : List Json → Bool
  | [] => true
  | j :: rest => j.wf && Json.wfList rest

/-- Well-formedness of an object field list: distinct keys, well-formed values. -/
def Json.wfFields : List (String × Json) → Bool
  | [] => true
  | (k, v) :: rest => keyFree k rest && v.wf && Json.wfFields rest

end

/-- Content of a file on disk, as seen through the JSON codec: either text
that parses to a JSON value (for well-formed values, `json.dump` output
parses back to the same value), or text on which `json.load` raises. -/
inductive FileContent where
  | goodJson (j : Json) : FileContent
  | badText : FileContent

/-- The filesystem, as an association list from paths to file contents.
`none` on lookup models `os.path.exists(path) == False`. -/
abbrev FS := List (String × FileContent)

/-- Reads the content stored at `path`, if the file exists. -/
def fsRead (fs : FS) (path : String) : Option FileContent :=
  match fs with
  | [] => none
  | (p, c) :: rest => if p = path then some c else fsRead rest path

/-- Writes `c` at `path`: overwrites an existing entry in place, otherwise
appends a new one. -/
def fsWrite (fs : FS) (path : String) (c : FileContent) : FS :=
  match fs with
  | [] => [(path, c)]
  | (p, c2) :: rest =>
      if p = path then (path, c) :: rest else (p, c2) :: fsWrite rest path c

/-- Embedding of `utils.save_json(path, data)`:
`with open(path, "w") as f: json.dump(data, f, indent=4)`.
The body installs no exception handler, so a failing write (unwritable
path, disk full, unserializable data) raises into the caller; `writeOk`
carries the environment's disposition.  On success the file holds the
dumped text of `data`, which parses back to `data`. -/
def save_json (fs : FS) (writeOk : Bool) (path : String) (data : Json) :
    Except String FS :=
  if writeOk then .ok (fsWrite fs path (.goodJson data)) else .error "write failure"

/-- Embedding of `utils.load_json(path, default)`: if the file exists, try
`json.load`; a bare `except:` returns `default`; a missing file also
returns `default`. -/
def load_json (fs : FS) (path : String) (default : Json) : Json :=
  match fsRead fs path with
  | none => default
  | some (.goodJson j) => j
  | some .badText => default

/-- Path constant `HISTORY_PATH` from `app.py`. -/
def HISTORY_PATH : String := "chat_store.json"

/-- Path constant `PROFILE_PATH` from `app.py`. -/
def PROFILE_PATH : String := ".profile_store.json"

/-- A langchain `Document`: extracted text plus its `source` metadata.
Chunks stored in the vector index are represented the same way. -/
structure Doc where
  page_content : String
  source : String
deriving DecidableEq

/-- The built-in fallback corpus from `CareerChatbotRAG._create_new_db`,
substituted when no documents were extracted. -/
def fallbackDocs : List Doc :=
  [⟨"Data Science includes roles like Data Analyst, ML Engineer, and Research Scientist.", "Internal"⟩,
   ⟨"Software Engineering requires mastery of algorithms, systems design, and version control.", "Internal"⟩]

/-- Outcome of running a loader (`PyPDFLoader`/`TextLoader`) on one file of
the knowledge-base directory: the documents it yields, or the exception it
raises.  The loaders are external collaborators, so the outcome is data. -/
abbrev LoadOutcome := Except String (List Doc)

/-- Embedding of the document-collection loop of `_create_new_db`: if the
knowledge-base directory exists, iterate over its listing; dispatch on the
`.pdf` / `.txt` extension (other extensions are skipped); a loader failure
hits `except: continue` and skips that file.  A missing directory yields no
documents. -/
def extract_documents (kbExists : Bool) (files : List (String × LoadOutcome)) :
    List Doc :=
  if kbExists then
    files.foldl
      (fun documents fo =>
        if fo.1.endsWith ".pdf" || fo.1.endsWith ".txt" then
          match fo.2 with
          | .ok ds => documents ++ ds
          | .error _ => documents
        else documents)
      []
  else []

/-- Chunk size of the `RecursiveCharacterTextSplitter` in `_create_new_db`. -/
def chunk_size : Nat := 1000

/-- Chunk overlap of the `RecursiveCharacterTextSplitter` in `_create_new_db`. -/
def chunk_overlap : Nat := 100

/-- Start offsets of the chunks of a text of length `len`: multiples of
`chunk_size - chunk_overlap`, one window per started stride. -/
def chunkStarts (len : Nat) : List Nat :=
  (List.range ((len + (chunk_size - chunk_overlap) - 1) / (chunk_size - chunk_overlap))).map
    (fun i => i * (chunk_size - chunk_overlap))

/-- Model of the external `RecursiveCharacterTextSplitter.split_text`:
windows of at most `chunk_size` characters whose starts are
`chunk_size - chunk_overlap` apart, so consecutive windows share
`chunk_overlap` characters.  A text of at most `chunk_size` characters is
returned whole; an empty text yields no chunks. -/
def split_text (t : String) : List String :=
  (chunkStarts t.length).map (fun i => (t.drop i).take chunk_size)

/-- Model of `RecursiveCharacterTextSplitter.split_documents`: split every
document's text, each chunk keeping the parent document's metadata. -/
def split_documents (docs : List Doc) : List Doc :=
  docs.flatMap (fun d => (split_text d.page_content).map (fun c => ⟨c, d.source⟩))

/-- Embedding of `CareerChatbotRAG._create_new_db`, up to the contents the
built `Chroma` store receives: collect documents, substitute the fallback
corpus when none were extracted (`if not documents:`), split into chunks,
and build the store from the chunks.  (`db.persist()` sits in a
`try ... except: pass` and cannot change the returned store.) -/
def create_new_db (kbExists : Bool) (files : List (String × LoadOutcome)) :
    List Doc :=
  let documents := extract_documents kbExists files
  let documents := if documents.isEmpty then fallbackDocs else documents
  split_documents documents

/-- A constructed `ChatGroq` client, identified by the constructor
arguments of the call site in `CareerChatbotRAG.chat`. -/
structure ChatGroqClient where
  groq_api_key : String
  model_name : String
  temperature : String
deriving DecidableEq

/-- State of a `CareerChatbotRAG` instance: the `vector_store` field (the
chunk contents of the Chroma store, `None` before `load_engine`) and the
`llm` field (`None` until the first successful client construction). -/
structure RAGState where
  vector_store : Option (List Doc)
  llm : Option ChatGroqClient
deriving DecidableEq

/-- Embedding of `CareerChatbotRAG.__init__`: both `vector_store` and
`llm` start as `None`. -/
def initState : RAGState :=
  { vector_store := none, llm := none }

/-- Embedding of `CareerChatbotRAG.load_engine`: if a persisted store
exists, try to load it (`loadOutcome`); on failure or when nothing is
persisted, rebuild with `_create_new_db`.  The `llm` field is untouched. -/
def load_engine (st : RAGState) (persistExists : Bool)
    (loadOutcome : Except String (List Doc))
    (kbExists : Bool) (files : List (String × LoadOutcome)) : RAGState :=
  if persistExists then
    match loadOutcome with
    | .ok vs => { st with vector_store := some vs }
    | .error _ => { st with vector_store := some (create_new_db kbExists files) }
  else { st with vector_store := some (create_new_db kbExists files) }

/-- A message of the persisted history store: the dict
`{"role": ..., "content": ..., "time": ...}` appended by the chat input
handler (arbitrary roles can occur in a hand-edited history file). -/
structure StoredMessage where
  role : String
  content : String
  time : String
deriving DecidableEq

/-- The user profile dict as passed to `chat`; a field is `none` when the
corresponding key is absent, so that `dict.get(key, default)` is total. -/
structure UserProfile where
  skills : Option String
  education : Option String
  interest : Option String
deriving DecidableEq

/-- A langchain chat message: `SystemMessage`, `HumanMessage` or
`AIMessage`. -/
inductive ChatMessage where
  | system (content : String) : ChatMessage
  | human (content : String) : ChatMessage
  | ai (content : String) : ChatMessage
deriving DecidableEq

/-- The `profile_context` f-string of `CareerChatbotRAG.chat`, with the
`.get` defaults of the source: `Unknown`, `Unknown`, `General`. -/
def profile_context (p : UserProfile) : String :=
  "User Profile: Skills(" ++ p.skills.getD "Unknown" ++ "), Education(" ++
    p.education.getD "Unknown" ++ "), Interest(" ++ p.interest.getD "General" ++ ")."

/-- The `context` variable of `chat`: the retrieved chunk texts joined by a
blank line. -/
def context_of (docs : List Doc) : String :=
  String.intercalate "\n\n" (docs.map Doc.page_content)

/-- The content of the `SystemMessage` built in `chat`, reproducing the
f-string of the source (including its indentation and the trailing space
after the first sentence). -/
def system_content (p : UserProfile) (docs : List Doc) : String :=
  "You are a Technical AI Career Guidance Assistant. \n                " ++
    (profile_context p ++
      ("\n                Use the following context to provide professional, mentor-grade advice: " ++
        (context_of docs ++
          "\n                \n                Rules:\n                1. Provide structured, clear, and encouraging guidance.\n                2. Use professional typography: bullet points for steps and skills.\n                3. Tailor recommendations specifically to the user\x27s provided profile.\n                4. Maintain a calm, neutral, and helpful tone.")))

/-- Specification-side view of the history loop of `chat`: a `user` role
becomes a `HumanMessage`, an `assistant` role an `AIMessage`, any other
role is dropped. -/
def roleMap (m : StoredMessage) : Option ChatMessage :=
  if m.role = "user" then some (.human m.content)
  else if m.role = "assistant" then some (.ai m.content)
  else none

/-- Embedding of the message assembly of `chat`: start from the singleton
`SystemMessage` list, run the `for msg in history` append loop, then append
the new user query as a `HumanMessage`. -/
def buildMessages (p : UserProfile) (docs : List Doc)
    (history : List StoredMessage) (user_query : String) : List ChatMessage :=
  let messages : List ChatMessage := [.system (system_content p docs)]
  let messages := history.foldl
    (fun messages msg =>
      if msg.role = "user" then messages ++ [.human msg.content]
      else if msg.role = "assistant" then messages ++ [.ai msg.content]
      else messages)
    messages
  messages ++ [.human user_query]

/-- The client object built by `ChatGroq(groq_api_key=api_key,
model_name="llama-3.1-8b-instant", temperature=0.5)`. -/
def mkChatGroq (api_key : String) : ChatGroqClient :=
  ⟨api_key, "llama-3.1-8b-instant", "0.5"⟩

/-- Outcomes of the external calls made by `chat`: whether the `ChatGroq`
constructor raises, what `similarity_search` on the given store contents
returns or raises, and what `llm.invoke` returns or raises. -/
structure ChatEnv where
  mkClientOutcome : String → Except String Unit
  search : List Doc → String → Nat → Except String (List Doc)
  invoke : ChatGroqClient → List ChatMessage → Except String String

/-- The error reply built by the `except Exception as e:` handler of
`chat`. -/
def errorReply (e : String) : String :=
  "❌ System Error: " ++ e

/-- The `str(e)` of the `AttributeError` raised by
`self.vector_store.similarity_search` when `vector_store` is `None`. -/
def noneSearchError : String :=
  "\x27NoneType\x27 object has no attribute \x27similarity_search\x27"

/-- The part of `chat` after the client is available: retrieval, message
assembly, model invocation; any raise lands in the `except` handler, which
returns the error reply and an empty source list, leaving the state as it
was at the raise (`self.llm` keeps the value it had). -/
def chat_body (env : ChatEnv) (st : RAGState) (c : ChatGroqClient)
    (user_query : String) (history : List StoredMessage)
    (user_profile : UserProfile) : (String × List Doc) × RAGState :=
  match st.vector_store with
  | none => ((errorReply noneSearchError, []), st)
  | some vs =>
    match env.search vs user_query 3 with
    | .error e => ((errorReply e, []), st)
    | .ok docs =>
        let messages := buildMessages user_profile docs history user_query
        match env.invoke c messages with
        | .error e => ((errorReply e, []), st)
        | .ok resp => ((resp, docs), st)

/-- Embedding of `CareerChatbotRAG.chat(user_query, history, api_key,
user_profile)`.  When `self.llm` is unset (`if not self.llm:`), the
`ChatGroq` constructor runs first; if it raises, the handler answers with
`llm` still unset, otherwise `self.llm` is assigned and the body runs.
When `self.llm` is already set it is reused unchanged. -/
def chat (env : ChatEnv) (st : RAGState) (user_query : String)
    (history : List StoredMessage) (api_key : String)
    (user_profile : UserProfile) : (String × List Doc) × RAGState :=
  match st.llm with
  | some c => chat_body env st c user_query history user_profile
  | none =>
    match env.mkClientOutcome api_key with
    | .error e => ((errorReply e, []), st)
    | .ok _ =>
        chat_body env { st with llm := some (mkChatGroq api_key) }
          (mkChatGroq api_key) user_query history user_profile

/-- A session of the history store: display name, ordered messages,
last-updated timestamp. -/
structure Session where
  name : String
  messages : List StoredMessage
  time : String
deriving DecidableEq

/-- The history store: the `sessions` dict (association list keyed by
session id, in insertion order like a Python dict) and the `active_id`
pointer (`none` for JSON `null`). -/
structure HistoryStore where
  sessions : List (String × Session)
  active_id : Option String
deriving DecidableEq

/-- Dict lookup `sessions[sid]`, as an option. -/
def lookupSession : List (String × Session) → String → Option Session
  | [], _ => none
  | (k, s) :: rest, sid => if k = sid then some s else lookupSession rest sid

/-- Dict assignment `sessions[sid] = s`: updates an existing key in place,
otherwise appends (Python dict insertion-order semantics). -/
def setSession : List (String × Session) → String → Session → List (String × Session)
  | [], sid, s => [(sid, s)]
  | (k, s2) :: rest, sid, s =>
      if k = sid then (sid, s) :: rest else (k, s2) :: setSession rest sid s

/-- The guard of the New Conversation handler:
`if active_id and active_id in sessions and not sessions[active_id]["messages"]`.
Python truthiness makes a `None` or empty-string `active_id` fail the
first conjunct. -/
def activeChatEmpty (hst : HistoryStore) : Bool :=
  match hst.active_id with
  | none => false
  | some aid =>
      aid != "" &&
      match lookupSession hst.sessions aid with
      | none => false
      | some s => s.messages.isEmpty

/-- Embedding of the New Conversation button handler: when the guard holds
the handler is `pass`; otherwise it inserts a fresh session under the
freshly generated `uuid4` id `new_id` with placeholder name
`"Career Planning"`, empty message list and the current timestamp, and
repoints `active_id` to it (then persists the store with `save_json`,
which does not change the in-memory store). -/
def newConversationHandler (hst : HistoryStore) (new_id timestamp : String) :
    HistoryStore :=
  if activeChatEmpty hst then hst
  else
    { sessions := setSession hst.sessions new_id ⟨"Career Planning", [], timestamp⟩,
      active_id := some new_id }

/-- Embedding of the chat input handler's effect on the active session:
auto-rename when the message list is empty
(`prompt[:30] + "..." if len(prompt) > 30 else prompt`), append the user
message, and after `rag.chat` returns append the assistant message and
refresh the session timestamp. -/
def chatInputHandler (s : Session) (prompt response_content : String)
    (now_time sess_time : String) : Session :=
  let s :=
    if s.messages.isEmpty then
      { s with name := if prompt.length > 30 then prompt.take 30 ++ "..." else prompt }
    else s
  let s := { s with messages := s.messages ++ [StoredMessage.mk "user" prompt now_time] }
  { s with
    messages := s.messages ++ [StoredMessage.mk "assistant" response_content now_time],
    time := sess_time }

/-- The profile dict written by the Reset button handler (also the
`load_json` default for the profile): every field at its empty default. -/
def defaultProfileJson : Json :=
  .obj [("skills", .str ""), ("education", .str "Student"), ("interest", .str "")]

/-- Embedding of the Reset button handler: assign the default profile to
the in-memory state, then persist it with `save_json`.  Returns the
in-memory profile and the persistence outcome. -/
def resetProfileHandler (fs : FS) (writeOk : Bool) : Json × Except String FS :=
  let profile := defaultProfileJson
  (profile, save_json fs writeOk PROFILE_PATH profile)

/-- Proposition: some step of the body of `chat` after the client exists
fails — the retrieval raises (including the `AttributeError` of a `None`
vector store) or the model invocation raises. -/
def chatBodyFails (env : ChatEnv) (st : RAGState) (c : ChatGroqClient)
    (user_query : String) (history : List StoredMessage)
    (user_profile : UserProfile) : Prop :=
  st.vector_store = none ∨
  (∃ vs e, st.vector_store = some vs ∧
    env.search vs user_query 3 = .error e) ∨
  (∃ vs docs e, st.vector_store = some vs ∧
    env.search vs user_query 3 = .ok docs ∧
    env.invoke c (buildMessages user_profile docs history user_query)
      = .error e)

/-- Proposition: some step of the `chat` run fails — the client
construction raises, or (with the client that the run uses) the retrieval
or the model call raises. -/
def chatRunFails (env : ChatEnv) (st : RAGState) (user_query : String)
    (history : List StoredMessage) (api_key : String)
    (user_profile : UserProfile) : Prop :=
  (st.llm = none ∧ ∃ e, env.mkClientOutcome api_key = .error e) ∨
  (∃ c, st.llm = some c ∧
    chatBodyFails env st c user_query history user_profile) ∨
  (st.llm = none ∧ env.mkClientOutcome api_key = .ok () ∧
    chatBodyFails env { st with llm := some (mkChatGroq api_key) }
      (mkChatGroq api_key) user_query history user_profile)

/-! ## Helper lemmas -/

/-- The error reply of the `except` handler is never the empty string. -/
theorem errorReply_ne_empty (e : String) : errorReply e ≠ "" := by
  intro hEq
  have hlen := congrArg String.length hEq
  simp [errorReply, String.length_append] at hlen
  exact absurd hlen.1 (by decide)

/-- A failing body run answers with the error reply and no sources, and
leaves the state unchanged. -/
theorem chat_body_fail (env : ChatEnv) (st : RAGState) (c : ChatGroqClient)
    (q : String) (h : List StoredMessage) (p : UserProfile)
    (hfail : chatBodyFails env st c q h p) :
    ∃ e, chat_body env st c q h p = ((errorReply e, []), st) := by
  rcases hfail with hvs | ⟨vs, e, hvs, hs⟩ | ⟨vs, docs, e, hvs, hs, hi⟩
  · exact ⟨noneSearchError, by simp [chat_body, hvs]⟩
  · exact ⟨e, by simp [chat_body, hvs, hs]⟩
  · exact ⟨e, by simp [chat_body, hvs, hs, hi]⟩

/-- The body of `chat` never changes the orchestrator state. -/
theorem chat_body_state (env : ChatEnv) (st : RAGState) (c : ChatGroqClient)
    (q : String) (h : List StoredMessage) (p : UserProfile) :
    (chat_body env st c q h p).2 = st := by
  unfold chat_body
  split
  · rfl
  · split
    · rfl
    · dsimp only
      split
      · rfl
      · rfl

/-- Reading back a freshly written path returns the written content. -/
theorem fsRead_fsWrite (fs : FS) (path : String) (c : FileContent) :
    fsRead (fsWrite fs path c) path = some c := by
  induction fs with
  | nil => simp [fsWrite, fsRead]
  | cons hd tl ih =>
      obtain ⟨p, c2⟩ := hd
      by_cases h : p = path
      · simp [fsWrite, fsRead, h]
      · simp [fsWrite, fsRead, h, ih]

/-! ## Claim theorems -/

/-- C4: for every path and default, `load_json` returns the default when
the file is missing or its content is invalid JSON, without raising (the
embedding is a total function whose `except` branch yields the default);
when the file exists and parses as JSON, it returns the parsed content. -/
theorem load_json_contract (fs : FS) (path : String) (default : Json) :
    (fsRead fs path = none → load_json fs path default = default) ∧
    (fsRead fs path = some .badText → load_json fs path default = default) ∧
    (∀ j : Json, fsRead fs path = some (.goodJson j) →
      load_json fs path default = j) := by
  refine ⟨fun h => ?_, fun h => ?_, fun j h => ?_⟩ <;> simp [load_json, h]

/-- Witness for C4 at a concrete filesystem: a missing file and a corrupt
file yield the default, a parsable file yields its content. -/
theorem load_json_contract_witness :
    load_json [("a.json", .badText), ("b.json", .goodJson (.str "v"))]
        "missing.json" (Json.str "d") = Json.str "d" ∧
    load_json [("a.json", .badText), ("b.json", .goodJson (.str "v"))]
        "a.json" (Json.str "d") = Json.str "d" ∧
    load_json [("a.json", .badText), ("b.json", .goodJson (.str "v"))]
        "b.json" (Json.str "d") = Json.str "v" :=
  ⟨(load_json_contract [("a.json", .badText), ("b.json", .goodJson (.str "v"))]
      "missing.json" (Json.str "d")).1 rfl,
   (load_json_contract [("a.json", .badText), ("b.json", .goodJson (.str "v"))]
      "a.json" (Json.str "d")).2.1 rfl,
   (load_json_contract [("a.json", .badText), ("b.json", .goodJson (.str "v"))]
      "b.json" (Json.str "d")).2.2 (Json.str "v") rfl⟩

/-- C5 counterexample: `save_json` installs no exception handler, so a
failing write raises out of the persistence utility into its caller — at
this concrete input the modelled exception propagates as `Except.error`
instead of being swallowed, refuting the claim that the save operation
never raises past the utility boundary. -/
theorem save_json_raises_counterexample :
    save_json [] false PROFILE_PATH defaultProfileJson = .error "write failure" := rfl

/-- C5 amended: `save_json` propagates a write failure to its caller as a
raised exception (there is no handler in `utils.save_json`, and its
`app.py` call sites install none either); only a successful write returns,
having stored the serialized data. -/
theorem save_json_propagates (fs : FS) (path : String) (data : Json) :
    save_json fs false path data = .error "write failure" ∧
    save_json fs true path data = .ok (fsWrite fs path (.goodJson data)) :=
  ⟨rfl, rfl⟩

/-- C6: a successful `save_json` followed by `load_json` on the same path
returns the saved data, not the default, for every well-formed (Python
dict) JSON value. -/
theorem save_load_roundtrip (fs : FS) (path : String) (data default : Json)
    (_hwf : data.wf = true) :
    ∃ fs2, save_json fs true path data = .ok fs2 ∧
      load_json fs2 path default = data := by
  refine ⟨fsWrite fs path (.goodJson data), rfl, ?_⟩
  simp [load_json, fsRead_fsWrite]

/-- Witness for C6: round trip of a concrete profile structure through a
concrete filesystem. -/
theorem save_load_roundtrip_witness :
    ∃ fs2, save_json [("x", .badText)] true PROFILE_PATH defaultProfileJson = .ok fs2 ∧
      load_json fs2 PROFILE_PATH Json.null = defaultProfileJson :=
  save_load_roundtrip [("x", .badText)] PROFILE_PATH defaultProfileJson Json.null
    (by simp [defaultProfileJson, Json.wf, Json.wfFields, keyFree])

/-- C9: the Reset handler replaces the in-memory profile with the
all-defaults object (empty skills, `Student` education, empty interest)
regardless of the persistence outcome, and a successful save leaves the
persisted profile file holding exactly that object. -/
theorem profile_reset (fs : FS) (w : Bool) :
    (resetProfileHandler fs w).1 =
      Json.obj [("skills", .str ""), ("education", .str "Student"),
        ("interest", .str "")] ∧
    ∃ fs2, (resetProfileHandler fs true).2 = .ok fs2 ∧
      fsRead fs2 PROFILE_PATH = some (.goodJson defaultProfileJson) := by
  refine ⟨rfl, fsWrite fs PROFILE_PATH (.goodJson defaultProfileJson), rfl, ?_⟩
  exact fsRead_fsWrite fs PROFILE_PATH (.goodJson defaultProfileJson)

/-- C7: adding the first message to a session with an empty message list
renames it to the full prompt when the prompt has at most 30 characters
and to the first 30 characters followed by `"..."` otherwise; adding
messages to a non-empty session leaves the name unchanged. -/
theorem session_auto_rename (s : Session)
    (prompt response_content now_time sess_time : String) :
    (s.messages = [] →
      (chatInputHandler s prompt response_content now_time sess_time).name =
        (if prompt.length ≤ 30 then prompt else prompt.take 30 ++ "...")) ∧
    (s.messages ≠ [] →
      (chatInputHandler s prompt response_content now_time sess_time).name =
        s.name) := by
  constructor
  · intro h
    by_cases hlen : prompt.length ≤ 30
    · have : ¬ prompt.length > 30 := by omega
      simp [chatInputHandler, h, hlen, this]
    · have : prompt.length > 30 := by omega
      simp [chatInputHandler, h, hlen, this]
  · intro h
    simp [chatInputHandler, List.isEmpty_iff, h]

/-- Witness for C7: the 43-character prompt from the spec renames a fresh
session to its first 30 characters plus the truncation marker, and the
same prompt sent to a session that already has a message leaves the name
untouched. -/
theorem session_auto_rename_witness :
    (chatInputHandler (Session.mk "Career Planning" [] "t0")
        "Should I learn Rust or Go for backend work?" "resp" "12:00" "t1").name =
      "Should I learn Rust or Go for " ++ "..." ∧
    (chatInputHandler
        (Session.mk "Career Planning" [StoredMessage.mk "user" "hi" "11:59"] "t0")
        "Should I learn Rust or Go for backend work?" "resp" "12:00" "t1").name =
      "Career Planning" := by
  constructor
  · have h := (session_auto_rename (Session.mk "Career Planning" [] "t0")
        "Should I learn Rust or Go for backend work?" "resp" "12:00" "t1").1 rfl
    rw [h]; decide
  · exact (session_auto_rename
        (Session.mk "Career Planning" [StoredMessage.mk "user" "hi" "11:59"] "t0")
        "Should I learn Rust or Go for backend work?" "resp" "12:00" "t1").2
      (by decide)

/-- C3: when document extraction yields nothing (missing directory, empty
directory, or every file skipped or failing), `_create_new_db` builds the
index from the fallback corpus, so the index contents are exactly the
chunks of the fallback corpus and in particular non-empty. -/
theorem create_new_db_fallback (kbExists : Bool)
    (files : List (String × LoadOutcome))
    (hempty : extract_documents kbExists files = []) :
    create_new_db kbExists files = split_documents fallbackDocs ∧
    create_new_db kbExists files ≠ [] := by
  have hdb : create_new_db kbExists files = split_documents fallbackDocs := by
    simp [create_new_db, hempty]
  refine ⟨hdb, ?_⟩
  rw [hdb]
  decide

/-- Witness for C3: a missing knowledge-base directory extracts nothing,
and the built index is the non-empty chunk list of the fallback corpus. -/
theorem create_new_db_fallback_witness :
    create_new_db false [] = split_documents fallbackDocs ∧
    create_new_db false [] ≠ [] :=
  create_new_db_fallback false [] rfl

/-- Helper: the history append loop of `chat` equals a `filterMap` over
the history, appended to the accumulator. -/
theorem history_foldl_eq_filterMap (history : List StoredMessage)
    (acc : List ChatMessage) :
    history.foldl
      (fun messages msg =>
        if msg.role = "user" then messages ++ [.human msg.content]
        else if msg.role = "assistant" then messages ++ [.ai msg.content]
        else messages) acc
      = acc ++ history.filterMap roleMap := by
  induction history generalizing acc with
  | nil => simp
  | cons m rest ih =>
      by_cases h1 : m.role = "user"
      · simp [roleMap, h1, ih]
      · by_cases h2 : m.role = "assistant" <;> simp [roleMap, h1, h2, ih]

/-- C2: the assembled sequence is exactly the system message first, then
the prior messages in order with `user` mapped to a `HumanMessage`,
`assistant` to an `AIMessage` and every other role dropped, then the new
query as final `HumanMessage`; and the system message's content carries
the persona instructions, the rendered profile summary and the joined
retrieved chunk texts. -/
theorem assembled_message_order (p : UserProfile) (docs : List Doc)
    (history : List StoredMessage) (user_query : String) :
    buildMessages p docs history user_query =
      ChatMessage.system (system_content p docs) ::
        (history.filterMap roleMap ++ [ChatMessage.human user_query]) ∧
    (∀ m : StoredMessage, m.role = "user" →
      roleMap m = some (.human m.content)) ∧
    (∀ m : StoredMessage, m.role = "assistant" →
      roleMap m = some (.ai m.content)) ∧
    (∀ m : StoredMessage, m.role ≠ "user" → m.role ≠ "assistant" →
      roleMap m = none) ∧
    (∃ mid post,
      system_content p docs =
        "You are a Technical AI Career Guidance Assistant. \n                " ++
          (profile_context p ++ (mid ++ (context_of docs ++ post)))) := by
  refine ⟨?_, fun m h => by simp [roleMap, h], fun m h => ?_, fun m h1 h2 => ?_,
    ⟨"\n                Use the following context to provide professional, mentor-grade advice: ",
     "\n                \n                Rules:\n                1. Provide structured, clear, and encouraging guidance.\n                2. Use professional typography: bullet points for steps and skills.\n                3. Tailor recommendations specifically to the user\x27s provided profile.\n                4. Maintain a calm, neutral, and helpful tone.",
     rfl⟩⟩
  · simp [buildMessages, history_foldl_eq_filterMap]
  · simp [roleMap, h]
  · simp [roleMap, h1, h2]

/-- Witness for C2: a three-message history with a foreign `system` role
assembles to system, the surviving prior turns in order, then the new
query; and `roleMap` maps and drops roles as claimed at concrete
messages. -/
theorem assembled_message_order_witness :
    buildMessages (UserProfile.mk (some "Python") (some "Student") (some "DS"))
        [Doc.mk "chunk one" "Internal"]
        [StoredMessage.mk "user" "hello" "10:00",
         StoredMessage.mk "system" "sneaky" "10:01",
         StoredMessage.mk "assistant" "hi there" "10:02"]
        "next question" =
      ChatMessage.system
          (system_content
            (UserProfile.mk (some "Python") (some "Student") (some "DS"))
            [Doc.mk "chunk one" "Internal"]) ::
        ([ChatMessage.human "hello", ChatMessage.ai "hi there"] ++
          [ChatMessage.human "next question"]) ∧
    roleMap (StoredMessage.mk "user" "hello" "10:00") =
      some (.human "hello") ∧
    roleMap (StoredMessage.mk "assistant" "hi there" "10:02") =
      some (.ai "hi there") ∧
    roleMap (StoredMessage.mk "system" "sneaky" "10:01") = none := by
  have h := assembled_message_order
    (UserProfile.mk (some "Python") (some "Student") (some "DS"))
    [Doc.mk "chunk one" "Internal"]
    [StoredMessage.mk "user" "hello" "10:00",
     StoredMessage.mk "system" "sneaky" "10:01",
     StoredMessage.mk "assistant" "hi there" "10:02"]
    "next question"
  refine ⟨?_, h.2.1 (StoredMessage.mk "user" "hello" "10:00") rfl,
    h.2.2.1 (StoredMessage.mk "assistant" "hi there" "10:02") rfl,
    h.2.2.2.1 (StoredMessage.mk "system" "sneaky" "10:01")
      (by decide) (by decide)⟩
  rw [h.1]
  rfl

/-- C1: whenever any step of the chat operation fails — the `ChatGroq`
construction, the similarity search (including a missing vector store), or
the model invocation raises — `chat` does not raise past its boundary: it
returns the error reply (a non-empty string prefixed by
`"❌ System Error: "`) paired with an empty source-chunk list. -/
theorem chat_fail_soft (env : ChatEnv) (st : RAGState) (user_query : String)
    (history : List StoredMessage) (api_key : String)
    (user_profile : UserProfile)
    (hfail : chatRunFails env st user_query history api_key user_profile) :
    ∃ e, (chat env st user_query history api_key user_profile).1 =
        (errorReply e, []) ∧ errorReply e ≠ "" := by
  rcases hfail with ⟨hllm, e, hmk⟩ | ⟨c, hllm, hbody⟩ | ⟨hllm, hmk, hbody⟩
  · exact ⟨e, by simp [chat, hllm, hmk], errorReply_ne_empty e⟩
  · obtain ⟨e, he⟩ :=
      chat_body_fail env st c user_query history user_profile hbody
    exact ⟨e, by simp [chat, hllm, he], errorReply_ne_empty e⟩
  · obtain ⟨e, he⟩ :=
      chat_body_fail env { st with llm := some (mkChatGroq api_key) }
        (mkChatGroq api_key) user_query history user_profile hbody
    exact ⟨e, by simp [chat, hllm, hmk, he], errorReply_ne_empty e⟩

/-- Environment whose `ChatGroq` constructor raises (invalid credential);
retrieval and invocation behave normally. -/
def envBadKey : ChatEnv :=
  { mkClientOutcome := fun _ => .error "invalid api key",
    search := fun vs _ k => .ok (vs.take k),
    invoke := fun _ _ => .ok "advice" }

/-- Orchestrator state right after `load_engine`: store loaded, no client. -/
def readyState : RAGState := { vector_store := some [], llm := none }

/-- Witness for C1: with an invalid credential the chat call returns the
error reply and an empty source list. -/
theorem chat_fail_soft_witness :
    ∃ e, (chat envBadKey readyState "What should I learn?" [] "bad"
        (UserProfile.mk (some "") (some "Student") (some ""))).1 =
      (errorReply e, []) ∧ errorReply e ≠ "" :=
  chat_fail_soft envBadKey readyState "What should I learn?" [] "bad"
    (UserProfile.mk (some "") (some "Student") (some ""))
    (Or.inl ⟨rfl, "invalid api key", rfl⟩)

/-- C8: the model client is `None` after construction and still `None`
after index loading; once the state holds a client, every chat call
returns the state unchanged (so the client is non-None, unchanged, and the
lifecycle never returns to a client-less state), and the run is
independent of the client-construction oracle — the existing client is
reused instead of built anew. -/
theorem llm_lifecycle :
    initState.llm = none ∧
    (∀ st pe lo kb files, (load_engine st pe lo kb files).llm = st.llm) ∧
    (∀ env st q h key p c, st.llm = some c →
      (chat env st q h key p).2 = st ∧
      ((chat env st q h key p).2).llm = some c ∧
      ∀ env2 : ChatEnv, env2.search = env.search → env2.invoke = env.invoke →
        chat env2 st q h key p = chat env st q h key p) := by
  refine ⟨rfl, ?_, ?_⟩
  · intro st pe lo kb files
    unfold load_engine
    split
    · split <;> rfl
    · rfl
  · intro env st q h key p c hllm
    have hstate : (chat env st q h key p).2 = st := by
      simp [chat, hllm, chat_body_state]
    refine ⟨hstate, by rw [hstate]; exact hllm, ?_⟩
    intro env2 hs hi
    simp only [chat, hllm]
    unfold chat_body
    simp only [hs, hi]

/-- Environment with a working client constructor, retrieval and model. -/
def envActive : ChatEnv :=
  { mkClientOutcome := fun _ => .ok (),
    search := fun vs _ k => .ok (vs.take k),
    invoke := fun _ _ => .ok "advice" }

/-- Orchestrator state in which a client already exists. -/
def activeState : RAGState :=
  { vector_store := some [], llm := some (mkChatGroq "gsk_live") }

/-- Witness for C8: a chat call on a state that already holds a client
leaves the state — in particular the client — unchanged. -/
theorem llm_lifecycle_witness :
    (chat envActive activeState "q" [] "other-key"
      (UserProfile.mk none none none)).2 = activeState ∧
    ((chat envActive activeState "q" [] "other-key"
      (UserProfile.mk none none none)).2).llm = some (mkChatGroq "gsk_live") :=
  ⟨(llm_lifecycle.2.2 envActive activeState "q" [] "other-key"
      (UserProfile.mk none none none) (mkChatGroq "gsk_live") rfl).1,
   (llm_lifecycle.2.2 envActive activeState "q" [] "other-key"
      (UserProfile.mk none none none) (mkChatGroq "gsk_live") rfl).2.1⟩

/-- Looking up the just-assigned session id returns the assigned session. -/
theorem lookup_setSession_self (l : List (String × Session)) (sid : String)
    (s : Session) : lookupSession (setSession l sid s) sid = some s := by
  induction l with
  | nil => simp [setSession, lookupSession]
  | cons hd tl ih =>
      obtain ⟨k, s2⟩ := hd
      by_cases hk : k = sid
      · simp [setSession, lookupSession, hk]
      · simp [setSession, lookupSession, hk, ih]

/-- Assigning a fresh session id appends the entry at the end. -/
theorem setSession_fresh (l : List (String × Session)) (sid : String)
    (s : Session) (hfresh : lookupSession l sid = none) :
    setSession l sid s = l ++ [(sid, s)] := by
  induction l with
  | nil => simp [setSession]
  | cons hd tl ih =>
      obtain ⟨k, s2⟩ := hd
      by_cases hk : k = sid
      · simp [lookupSession, hk] at hfresh
      · simp [setSession, lookupSession, hk] at hfresh ⊢
        exact ih hfresh

/-- C10 counterexample: a history store whose sessions dict holds the
empty-string id with an empty message list, with the active pointer on
that id.  The pointer refers to an existing session with no messages, yet
the handler is not a no-op: Python truthiness makes `if active_id` fail on
the empty string, so a fresh session is created and the store changes. -/
theorem newconv_counterexample :
    lookupSession [("", Session.mk "Career Planning" [] "t0")] "" =
      some (Session.mk "Career Planning" [] "t0") ∧
    (Session.mk "Career Planning" [] "t0").messages = [] ∧
    (HistoryStore.mk [("", Session.mk "Career Planning" [] "t0")]
      (some "")).active_id = some "" ∧
    newConversationHandler
        (HistoryStore.mk [("", Session.mk "Career Planning" [] "t0")]
          (some ""))
        "9f1b-fresh" "t1" ≠
      HistoryStore.mk [("", Session.mk "Career Planning" [] "t0")]
        (some "") := by
  refine ⟨rfl, rfl, rfl, ?_⟩
  decide

/-- C10 amended: the create-new-conversation handler is a no-op exactly
when the active pointer is a non-empty string (the Python-truthy case the
guard requires) naming an existing session with an empty message list;
otherwise it appends one fresh session (placeholder name, empty messages,
current timestamp) under the freshly generated id and repoints the active
pointer to it; and since generated ids are non-empty, two consecutive
invocations are equivalent to one. -/
theorem newconv_spec :
    (∀ hst nid ts aid s, hst.active_id = some aid → aid ≠ "" →
      lookupSession hst.sessions aid = some s → s.messages = [] →
      newConversationHandler hst nid ts = hst) ∧
    (∀ hst nid ts, activeChatEmpty hst = false →
      lookupSession hst.sessions nid = none →
      (newConversationHandler hst nid ts).sessions =
        hst.sessions ++ [(nid, Session.mk "Career Planning" [] ts)] ∧
      (newConversationHandler hst nid ts).active_id = some nid) ∧
    (∀ hst nid1 nid2 ts1 ts2, nid1 ≠ "" →
      newConversationHandler (newConversationHandler hst nid1 ts1) nid2 ts2 =
        newConversationHandler hst nid1 ts1) := by
  refine ⟨?_, ?_, ?_⟩
  · intro hst nid ts aid s haid hne hlook hmsg
    have hguard : activeChatEmpty hst = true := by
      simp [activeChatEmpty, haid, hlook, hmsg, hne]
    simp [newConversationHandler, hguard]
  · intro hst nid ts hguard hfresh
    constructor
    · simp [newConversationHandler, hguard, setSession_fresh _ _ _ hfresh]
    · simp [newConversationHandler, hguard]
  · intro hst nid1 nid2 ts1 ts2 hne
    cases hguard : activeChatEmpty hst with
    | true => simp [newConversationHandler, hguard]
    | false =>
        have hstep : newConversationHandler hst nid1 ts1 =
            HistoryStore.mk
              (setSession hst.sessions nid1 (Session.mk "Career Planning" [] ts1))
              (some nid1) := by
          simp [newConversationHandler, hguard]
        rw [hstep]
        have hactive : activeChatEmpty
            (HistoryStore.mk
              (setSession hst.sessions nid1 (Session.mk "Career Planning" [] ts1))
              (some nid1)) = true := by
          simp [activeChatEmpty, lookup_setSession_self, hne]
        simp [newConversationHandler, hactive]

/-- Witness for C10 amended: a truthy active pointer to an empty session
makes the handler a no-op; on a store without an active session the
handler appends one fresh session and repoints; two consecutive
invocations equal one. -/
theorem newconv_spec_witness :
    newConversationHandler
        (HistoryStore.mk [("id1", Session.mk "Career Planning" [] "t0")]
          (some "id1")) "id9" "t1" =
      HistoryStore.mk [("id1", Session.mk "Career Planning" [] "t0")]
        (some "id1") ∧
    (newConversationHandler (HistoryStore.mk [] none) "id2" "t1").sessions =
      [] ++ [("id2", Session.mk "Career Planning" [] "t1")] ∧
    (newConversationHandler (HistoryStore.mk [] none) "id2" "t1").active_id =
      some "id2" ∧
    newConversationHandler
        (newConversationHandler (HistoryStore.mk [] none) "id2" "t1")
        "id3" "t2" =
      newConversationHandler (HistoryStore.mk [] none) "id2" "t1" :=
  ⟨newconv_spec.1
      (HistoryStore.mk [("id1", Session.mk "Career Planning" [] "t0")]
        (some "id1"))
      "id9" "t1" "id1" (Session.mk "Career Planning" [] "t0")
      rfl (by decide) rfl rfl,
   (newconv_spec.2.1 (HistoryStore.mk [] none) "id2" "t1" rfl rfl).1,
   (newconv_spec.2.1 (HistoryStore.mk [] none) "id2" "t1" rfl rfl).2,
   newconv_spec.2.2 (HistoryStore.mk [] none) "id2" "id3" "t1" "t2"
     (by decide)⟩

end Career
